import Mathlib

/-!
Verification of `shell/platform/windows/keyboard_key_channel_handler.cc`.

The handler translates a native Windows key event into a JSON record sent on
the "flutter/keyevent" channel and relays the consumer's handled/unhandled
verdict to a callback.  We embed the C++ shallowly:

* `GetModsForKeyState` is parametrised by the host query `GetKeyState`,
  modelled as a function `Nat → Int` from virtual-key code to the returned
  `SHORT`; the source tests `GetKeyState(vk) < 0` (high bit set means down).
* machine integers (`int`, `char32_t`, `uint32_t`) are modelled by `Nat`
  holding the bit pattern; the only bitwise operations in the source
  (`|`, `& ~0x80000000`) act on non-negative values bit-for-bit like `Nat`.
* `KeyboardHook` is modelled as the finite trace of its observable effects,
  in source order: the host-state read (the `GetModsForKeyState()` call in
  the `modifiers` field, which precedes the `switch` on `action`), then
  either the channel send, or — on the `default:` branch — the `std::cerr`
  diagnostic followed by the synchronous `callback(false)`.
* the reply continuation (source lines 203–209) is `onReply`.  It receives
  the result of `JsonMessageCodec::DecodeMessage`, which returns a null
  pointer when the payload does not decode; the source then evaluates
  `(*decoded)[kHandledKey].GetBool()` with no null check, no `HasMember`
  check and no type check.  Dereferencing the null `unique_ptr`, rapidjson's
  `operator[]` on an absent member and `GetBool` on a non-boolean value are
  each undefined behaviour / a failed assertion; we model every one of those
  paths as the outcome `crash`, and a successful extraction as `invoked b`
  (the callback runs with `b`).
-/

namespace Flutter

/-- Source line 22: the channel name constant. -/
def kChannelName : String := "flutter/keyevent"

/-- Source lines 24–30: JSON member keys of the outbound record and reply. -/
def kKeyCodeKey : String := "keyCode"

def kScanCodeKey : String := "scanCode"

def kCharacterCodePointKey : String := "characterCodePoint"

def kModifiersKey : String := "modifiers"

def kKeyMapKey : String := "keymap"

def kTypeKey : String := "type"

def kHandledKey : String := "handled"

/-- Source line 32: the keymap tag for this platform. -/
def kWindowsKeyMap : String := "windows"

/-- Source line 33. -/
def kKeyUp : String := "keyup"

/-- Source line 34. -/
def kKeyDown : String := "keydown"

/-- Source line 38: ceiling on pending events before a console warning.
The constant is declared in the source but is referenced nowhere else in
the translation unit. -/
def kMaxPendingEvents : Nat := 1000

/-- Source line 47: the extended-scancode flag OR'd into `scanCode`. -/
def kScancodeExtended : Nat := 0xe000

/-- Source lines 53–66: the private modifier bit enumeration. -/
def kShift : Nat := 1 <<< 0

def kShiftLeft : Nat := 1 <<< 1

def kShiftRight : Nat := 1 <<< 2

def kControl : Nat := 1 <<< 3

def kControlLeft : Nat := 1 <<< 4

def kControlRight : Nat := 1 <<< 5

def kAlt : Nat := 1 <<< 6

def kAltLeft : Nat := 1 <<< 7

def kAltRight : Nat := 1 <<< 8

def kWinLeft : Nat := 1 <<< 9

def kWinRight : Nat := 1 <<< 10

def kCapsLock : Nat := 1 <<< 11

def kNumLock : Nat := 1 <<< 12

def kScrollLock : Nat := 1 <<< 13

/-- Win32 `WM_KEYDOWN` window message, the `case` label at source line 192. -/
def WM_KEYDOWN : Nat := 0x0100

/-- Win32 `WM_KEYUP` window message, the `case` label at source line 195. -/
def WM_KEYUP : Nat := 0x0101

/-- Win32 virtual-key codes queried by `GetModsForKeyState`. -/
def VK_SHIFT : Nat := 0x10

def VK_CONTROL : Nat := 0x11

def VK_MENU : Nat := 0x12

def VK_CAPITAL : Nat := 0x14

def VK_LWIN : Nat := 0x5B

def VK_RWIN : Nat := 0x5C

def VK_NUMLOCK : Nat := 0x90

def VK_SCROLL : Nat := 0x91

def VK_LSHIFT : Nat := 0xA0

def VK_RSHIFT : Nat := 0xA1

def VK_LCONTROL : Nat := 0xA2

def VK_RCONTROL : Nat := 0xA3

def VK_LMENU : Nat := 0xA4

def VK_RMENU : Nat := 0xA5

/-- The fourteen virtual keys queried by `GetModsForKeyState`, in source
order (lines 117–144). -/
def trackedModifierKeys : List Nat :=
  [VK_SHIFT, VK_LSHIFT, VK_RSHIFT, VK_CONTROL, VK_LCONTROL, VK_RCONTROL,
   VK_MENU, VK_LMENU, VK_RMENU, VK_LWIN, VK_RWIN, VK_CAPITAL, VK_NUMLOCK,
   VK_SCROLL]

/-- Source lines 71, 114–147 (the Win32 branch): calls `GetKeyState` on all
modifier keys and packs the result into an `int` using the private bit
values.  `getKeyState` models the host's `GetKeyState`; the source treats a
key as down when the returned `SHORT` is negative. -/
def GetModsForKeyState (getKeyState : Nat → Int) : Nat :=
  let mods : Nat := 0
  let mods := if getKeyState VK_SHIFT < 0 then mods ||| kShift else mods
  let mods := if getKeyState VK_LSHIFT < 0 then mods ||| kShiftLeft else mods
  let mods := if getKeyState VK_RSHIFT < 0 then mods ||| kShiftRight else mods
  let mods := if getKeyState VK_CONTROL < 0 then mods ||| kControl else mods
  let mods := if getKeyState VK_LCONTROL < 0 then mods ||| kControlLeft else mods
  let mods := if getKeyState VK_RCONTROL < 0 then mods ||| kControlRight else mods
  let mods := if getKeyState VK_MENU < 0 then mods ||| kAlt else mods
  let mods := if getKeyState VK_LMENU < 0 then mods ||| kAltLeft else mods
  let mods := if getKeyState VK_RMENU < 0 then mods ||| kAltRight else mods
  let mods := if getKeyState VK_LWIN < 0 then mods ||| kWinLeft else mods
  let mods := if getKeyState VK_RWIN < 0 then mods ||| kWinRight else mods
  let mods := if getKeyState VK_CAPITAL < 0 then mods ||| kCapsLock else mods
  let mods := if getKeyState VK_NUMLOCK < 0 then mods ||| kNumLock else mods
  let mods := if getKeyState VK_SCROLL < 0 then mods ||| kScrollLock else mods
  mods

/-- Source lines 156–158: `return ch & ~0x80000000;` on `uint32_t`.  The
32-bit complement of `0x80000000` is `0x7FFFFFFF`; on the `uint32_t` domain
(values below `2 ^ 32`) the `Nat` bitwise AND agrees bit-for-bit with the
C computation. -/
def _UndeadChar (ch : Nat) : Nat :=
  ch &&& 0x7FFFFFFF

/-- The outbound record built at source lines 182–197.  Fields appear in the
order the members are added (`type` is added inside the `switch`; a record
is only ever sent complete). -/
structure KeyEvent where
  keyCode : Nat
  scanCode : Nat
  characterCodePoint : Nat
  keymap : String
  modifiers : Nat
  type : String
deriving DecidableEq, Repr

/-- One observable effect of a `KeyboardHook` call, in program order. -/
inductive Effect where
  | readMods (mods : Nat)
  | logError (action : Nat)
  | send (event : KeyEvent)
  | callback (handled : Bool)
deriving DecidableEq, Repr

/-- Source lines 172–210: `KeyboardKeyChannelHandler::KeyboardHook`, as the
trace of its observable effects.  The record members `keyCode`, `scanCode`
(OR'd with `kScancodeExtended` when `extended`), `characterCodePoint`
(through `_UndeadChar`), `keymap` and `modifiers` (the `GetModsForKeyState`
call — the host-state read happens here, before the `switch`) are added
unconditionally; the `switch` then either adds `type` and sends, or — on
any other `action` — prints the diagnostic and invokes `callback(false)`
without sending. -/
def KeyboardHook (getKeyState : Nat → Int) (key scancode action character : Nat)
    (extended was_down : Bool) : List Effect :=
  let mods := GetModsForKeyState getKeyState
  let event (ty : String) : KeyEvent :=
    { keyCode := key
      scanCode := scancode ||| (if extended then kScancodeExtended else 0)
      characterCodePoint := _UndeadChar character
      keymap := kWindowsKeyMap
      modifiers := mods
      type := ty }
  if action = WM_KEYDOWN then
    [Effect.readMods mods, Effect.send (event kKeyDown)]
  else if action = WM_KEYUP then
    [Effect.readMods mods, Effect.send (event kKeyUp)]
  else
    [Effect.readMods mods, Effect.logError action, Effect.callback false]

/-- The records sent on the channel during a trace. -/
def sentEvents (tr : List Effect) : List KeyEvent :=
  tr.filterMap fun e =>
    match e with
    | Effect.send ev => some ev
    | _ => none

/-- The values the callback was synchronously invoked with during a trace. -/
def callbackValues (tr : List Effect) : List Bool :=
  tr.filterMap fun e =>
    match e with
    | Effect.callback b => some b
    | _ => none

/-- Recognises the host modifier-state read in a trace. -/
def isReadMods : Effect → Bool
  | Effect.readMods _ => true
  | _ => false

/-- Recognises a console diagnostic in a trace. -/
def isLogError : Effect → Bool
  | Effect.logError _ => true
  | _ => false

/-- A decoded JSON value, as far as the reply path inspects one. -/
inductive JVal where
  | jbool (b : Bool)
  | jnum (n : Int)
  | jstr (s : String)
deriving DecidableEq, Repr

/-- A decoded JSON object: its members in order. -/
def JDoc := List (String × JVal)

/-- rapidjson member lookup: the first member with the given key. -/
def getMember (doc : List (String × JVal)) (key : String) : Option JVal :=
  (doc.find? fun p => p.1 == key).map fun p => p.2

/-- Outcome of running the reply continuation: either the callback is
invoked with the extracted boolean, or the continuation hits undefined
behaviour / a failed rapidjson assertion. -/
inductive ReplyOutcome where
  | invoked (handled : Bool)
  | crash
deriving DecidableEq, Repr

/-- Source lines 203–209: the reply continuation.  `decoded = none` models
`DecodeMessage` returning null (undecodable payload): the source then
dereferences the null `unique_ptr` — a crash.  A present document is
indexed with `operator[](kHandledKey)` (asserts when the member is absent)
and read with `GetBool()` (asserts when the member is not a boolean);
otherwise the callback runs with the extracted value. -/
def onReply (decoded : Option (List (String × JVal))) : ReplyOutcome :=
  match decoded with
  | none => ReplyOutcome.crash
  | some doc =>
    match getMember doc kHandledKey with
    | some (JVal.jbool b) => ReplyOutcome.invoked b
    | some _ => ReplyOutcome.crash
    | none => ReplyOutcome.crash

/-- `n` consecutive `KeyboardHook` calls with a recognised action and no
intervening replies: the concatenation of their effect traces. -/
def dispatchN (getKeyState : Nat → Int) : Nat → List Effect
  | 0 => []
  | n + 1 =>
      dispatchN getKeyState n ++
        KeyboardHook getKeyState 0x41 0x1E WM_KEYDOWN 0x61 false false

end Flutter

open Flutter

/-- Auxiliary: `testBit` of one accumulation step of `GetModsForKeyState`. -/
theorem testBit_accum (c : Prop) [Decidable c] (m b j : Nat) :
    (if c then m ||| b else m).testBit j = (m.testBit j || (decide c && b.testBit j)) := by
  by_cases h : c <;> simp [h, Nat.testBit_lor]

/-- C4: `handle_key_event(key=0x41, scancode=0x1E, action=DOWN, char=0x61,
extended=false, wasDown=false)` with no modifier key down sends exactly the
record with keyCode 65, scanCode 30, characterCodePoint 97, keymap
"windows", modifiers 0 and type "keydown", after the single host-state
read. -/
theorem C4_concrete_scenario :
    Flutter.KeyboardHook (fun _ => 0) 0x41 0x1E Flutter.WM_KEYDOWN 0x61 false false =
      [Flutter.Effect.readMods 0,
       Flutter.Effect.send
         { keyCode := 65, scanCode := 30, characterCodePoint := 97,
           keymap := "windows", modifiers := 0, type := "keydown" }] := by
  decide

/-- C9: two `KeyboardHook` calls differing only in `was_down` have the same
effect trace, hence the same sent records and the same callback
invocations; `was_down` influences nothing observable. -/
theorem C9_was_down_irrelevant (g : Nat → Int) (key scancode action character : Nat)
    (extended wd1 wd2 : Bool) :
    Flutter.KeyboardHook g key scancode action character extended wd1 =
        Flutter.KeyboardHook g key scancode action character extended wd2 ∧
    Flutter.sentEvents (Flutter.KeyboardHook g key scancode action character extended wd1) =
        Flutter.sentEvents (Flutter.KeyboardHook g key scancode action character extended wd2) ∧
    Flutter.callbackValues (Flutter.KeyboardHook g key scancode action character extended wd1) =
        Flutter.callbackValues (Flutter.KeyboardHook g key scancode action character extended wd2) :=
  ⟨rfl, rfl, rfl⟩

/-- C10: on every call — recognised action or not — the trace begins with
the host modifier-state read (the `GetModsForKeyState` call precedes the
`switch` on `action`), and that read occurs exactly once. -/
theorem C10_mods_read_first (g : Nat → Int) (key scancode action character : Nat)
    (extended was_down : Bool) :
    (Flutter.KeyboardHook g key scancode action character extended was_down).countP
        Flutter.isReadMods = 1 ∧
    (Flutter.KeyboardHook g key scancode action character extended was_down).head? =
      some (Flutter.Effect.readMods (Flutter.GetModsForKeyState g)) := by
  simp only [Flutter.KeyboardHook]
  by_cases h1 : action = Flutter.WM_KEYDOWN
  · rw [if_pos h1]
    simp [Flutter.isReadMods]
  · rw [if_neg h1]
    by_cases h2 : action = Flutter.WM_KEYUP
    · rw [if_pos h2]
      simp [Flutter.isReadMods]
    · rw [if_neg h2]
      simp [Flutter.isReadMods]

/-- C1: on an unrecognised `action` (neither `WM_KEYDOWN` nor `WM_KEYUP`)
the callback is invoked synchronously exactly once with `false` and no send
is performed on the channel. -/
theorem C1_unrecognized_action (g : Nat → Int) (key scancode action character : Nat)
    (extended was_down : Bool)
    (hdown : action ≠ Flutter.WM_KEYDOWN) (hup : action ≠ Flutter.WM_KEYUP) :
    Flutter.sentEvents (Flutter.KeyboardHook g key scancode action character extended was_down)
        = [] ∧
    Flutter.callbackValues
        (Flutter.KeyboardHook g key scancode action character extended was_down) = [false] := by
  simp [Flutter.KeyboardHook, hdown, hup, Flutter.sentEvents, Flutter.callbackValues]

/-- Witness for C1 at `action = 0` (recognised actions are `0x0100` and
`0x0101`). -/
theorem C1_unrecognized_action_witness :
    Flutter.sentEvents (Flutter.KeyboardHook (fun _ => 0) 65 30 0 97 false false) = [] ∧
    Flutter.callbackValues (Flutter.KeyboardHook (fun _ => 0) 65 30 0 97 false false)
        = [false] :=
  C1_unrecognized_action (fun _ => 0) 65 30 0 97 false false (by decide) (by decide)

/-- C2: with a recognised action the call performs exactly one send and no
synchronous callback; when the reply decodes to a record whose `handled`
member is the boolean `b`, the reply continuation invokes the callback
exactly once, with `b`. -/
theorem C2_reply_handled (g : Nat → Int) (key scancode action character : Nat)
    (extended was_down : Bool) (doc : List (String × Flutter.JVal)) (b : Bool)
    (haction : action = Flutter.WM_KEYDOWN ∨ action = Flutter.WM_KEYUP)
    (hdoc : Flutter.getMember doc Flutter.kHandledKey = some (Flutter.JVal.jbool b)) :
    (Flutter.sentEvents
        (Flutter.KeyboardHook g key scancode action character extended was_down)).length = 1 ∧
    Flutter.callbackValues
        (Flutter.KeyboardHook g key scancode action character extended was_down) = [] ∧
    Flutter.onReply (some doc) = Flutter.ReplyOutcome.invoked b := by
  refine ⟨?_, ?_, ?_⟩ <;>
    first
      | (simp [Flutter.onReply, hdoc])
      | (simp only [Flutter.KeyboardHook]
         rcases haction with h | h
         · rw [if_pos h]
           simp [Flutter.sentEvents, Flutter.callbackValues]
         · rw [if_neg (by rw [h]; decide), if_pos h]
           simp [Flutter.sentEvents, Flutter.callbackValues])

/-- Witness for C2 at a keydown with reply record `handled = true`. -/
theorem C2_reply_handled_witness :
    (Flutter.sentEvents
        (Flutter.KeyboardHook (fun _ => 0) 65 30 Flutter.WM_KEYDOWN 97 false false)).length
      = 1 ∧
    Flutter.callbackValues
        (Flutter.KeyboardHook (fun _ => 0) 65 30 Flutter.WM_KEYDOWN 97 false false) = [] ∧
    Flutter.onReply (some [(Flutter.kHandledKey, Flutter.JVal.jbool true)]) =
      Flutter.ReplyOutcome.invoked true :=
  C2_reply_handled (fun _ => 0) 65 30 Flutter.WM_KEYDOWN 97 false false
    [(Flutter.kHandledKey, Flutter.JVal.jbool true)] true (Or.inl rfl) (by decide)

/-- C5: dead-key normalisation computes `x & ~0x80000000` on the 32-bit
domain, is idempotent, is the identity whenever the marker bit (bit 31) is
clear, and maps `0x8000005E` to `0x5E`. -/
theorem C5_undead_char (x : Nat) (hx : x < 2 ^ 32) :
    Flutter._UndeadChar x = x &&& 0x7FFFFFFF ∧
    Flutter._UndeadChar (Flutter._UndeadChar x) = Flutter._UndeadChar x ∧
    (x.testBit 31 = false → Flutter._UndeadChar x = x) ∧
    Flutter._UndeadChar 0x8000005E = 0x5E := by
  refine ⟨rfl, ?_, ?_, by decide⟩
  · apply Nat.eq_of_testBit_eq
    intro i
    simp [Flutter._UndeadChar, Nat.testBit_land, Bool.and_assoc]
  · intro h31
    apply Nat.eq_of_testBit_eq
    intro i
    rw [Flutter._UndeadChar, Nat.testBit_land]
    have hmask : Nat.testBit 0x7FFFFFFF i = decide (i < 31) := by
      have h : (0x7FFFFFFF : Nat) = 2 ^ 31 - 1 := by norm_num
      rw [h, Nat.testBit_two_pow_sub_one]
    rw [hmask]
    by_cases hi : i < 31
    · simp [hi]
    · have hxi : x.testBit i = false := by
        rcases Nat.lt_or_ge i 32 with h32 | h32
        · have h : i = 31 := by omega
          rw [h]
          exact h31
        · exact Nat.testBit_eq_false_of_lt
            (lt_of_lt_of_le hx (Nat.pow_le_pow_right (by norm_num) h32))
      simp [hi, hxi]

/-- Witness for C5 at the dead-key caret code point `0x8000005E`. -/
theorem C5_undead_char_witness :
    Flutter._UndeadChar 0x8000005E = 0x8000005E &&& 0x7FFFFFFF ∧
    Flutter._UndeadChar (Flutter._UndeadChar 0x8000005E) = Flutter._UndeadChar 0x8000005E ∧
    (Nat.testBit 0x8000005E 31 = false → Flutter._UndeadChar 0x8000005E = 0x8000005E) ∧
    Flutter._UndeadChar 0x8000005E = 0x5E :=
  C5_undead_char 0x8000005E (by norm_num)

/-- C6: the reply continuation is not total on malformed replies.  An
undecodable payload (null decoded document), a decoded record with no
`handled` member, and a `handled` member that is not a boolean each drive
the source through an unchecked null dereference or a failed rapidjson
assertion, modelled as `crash` — contradicting the specified requirement
that a malformed reply must not crash the handler. -/
theorem C6_malformed_reply_crashes :
    Flutter.onReply none = Flutter.ReplyOutcome.crash ∧
    Flutter.onReply (some []) = Flutter.ReplyOutcome.crash ∧
    Flutter.onReply (some [("other", Flutter.JVal.jbool true)]) =
      Flutter.ReplyOutcome.crash ∧
    Flutter.onReply (some [(Flutter.kHandledKey, Flutter.JVal.jnum 1)]) =
      Flutter.ReplyOutcome.crash := by
  decide

/-- C7: the source declares the ceiling `kMaxPendingEvents = 1000` (with a
comment promising a console warning about unhandled events) but wires no
counter to it — `KeyboardHook` emits no diagnostic no matter how many
requests are dispatched without replies; in particular 1001 consecutive
dispatches emit none. -/
theorem C7_no_pending_counter :
    Flutter.kMaxPendingEvents = 1000 ∧
    (∀ (g : Nat → Int) (n : Nat),
      (Flutter.dispatchN g n).countP Flutter.isLogError = 0) ∧
    (Flutter.dispatchN (fun _ => 0) 1001).countP Flutter.isLogError = 0 := by
  have hall : ∀ (g : Nat → Int) (n : Nat),
      (Flutter.dispatchN g n).countP Flutter.isLogError = 0 := by
    intro g n
    induction n with
    | zero => rfl
    | succ k ih =>
      rw [Flutter.dispatchN, List.countP_append, ih]
      simp [Flutter.KeyboardHook, Flutter.isLogError]
  exact ⟨rfl, hall, hall (fun _ => 0) 1001⟩

/-- C3 counterexample: with `scancode = 0xe000` and `extended = false` the
sent record's `scanCode` already carries the extended-flag bits, so the
flag is set although `extended` is false — the claimed "if and only if"
fails as stated over all input tuples. -/
theorem C3_counterexample :
    (Flutter.sentEvents
        (Flutter.KeyboardHook (fun _ => 0) 0 0xe000 Flutter.WM_KEYDOWN 0 false false)).all
      (fun ev => ev.scanCode &&& Flutter.kScancodeExtended == 0) = false := by
  decide

/-- C3 (amended): for every input whose `scanCode` argument carries none of
the extended-flag bits (`scanCode &&& 0xe000 = 0`) and whose action is
recognised, exactly one record is sent, its `type` is `"keydown"` for the
down action and `"keyup"` for the up action, and its `scanCode` has the
extended flag set iff `extended` is true. -/
theorem C3_type_and_extended_bit (g : Nat → Int) (key scancode action character : Nat)
    (extended was_down : Bool)
    (haction : action = Flutter.WM_KEYDOWN ∨ action = Flutter.WM_KEYUP)
    (hscan : scancode &&& Flutter.kScancodeExtended = 0) :
    (Flutter.sentEvents
        (Flutter.KeyboardHook g key scancode action character extended was_down)).length = 1 ∧
    ∀ ev ∈ Flutter.sentEvents
        (Flutter.KeyboardHook g key scancode action character extended was_down),
      (ev.type = if action = Flutter.WM_KEYDOWN then Flutter.kKeyDown else Flutter.kKeyUp) ∧
      ((ev.scanCode &&& Flutter.kScancodeExtended ≠ 0) ↔ extended = true) := by
  have hne : ∀ sc : Nat, (sc ||| Flutter.kScancodeExtended) &&& Flutter.kScancodeExtended ≠ 0 := by
    intro sc h0
    have hbit : ((sc ||| Flutter.kScancodeExtended) &&&
        Flutter.kScancodeExtended).testBit 13 = true := by
      rw [Nat.testBit_land, Nat.testBit_lor]
      have h13 : Nat.testBit Flutter.kScancodeExtended 13 = true := by decide
      simp [h13]
    rw [h0] at hbit
    simp [Nat.zero_testBit] at hbit
  have hbranch : ∀ ty : String,
      (Flutter.sentEvents
          [Flutter.Effect.readMods (Flutter.GetModsForKeyState g),
           Flutter.Effect.send
             { keyCode := key,
               scanCode := scancode ||| (if extended then Flutter.kScancodeExtended else 0),
               characterCodePoint := Flutter._UndeadChar character,
               keymap := Flutter.kWindowsKeyMap,
               modifiers := Flutter.GetModsForKeyState g, type := ty }]).length = 1 ∧
      ∀ ev ∈ Flutter.sentEvents
          [Flutter.Effect.readMods (Flutter.GetModsForKeyState g),
           Flutter.Effect.send
             { keyCode := key,
               scanCode := scancode ||| (if extended then Flutter.kScancodeExtended else 0),
               characterCodePoint := Flutter._UndeadChar character,
               keymap := Flutter.kWindowsKeyMap,
               modifiers := Flutter.GetModsForKeyState g, type := ty }],
        ev.type = ty ∧
        ((ev.scanCode &&& Flutter.kScancodeExtended ≠ 0) ↔ extended = true) := by
    intro ty
    refine ⟨rfl, ?_⟩
    intro ev hev
    simp only [Flutter.sentEvents, List.filterMap, List.mem_singleton] at hev
    subst hev
    refine ⟨rfl, ?_⟩
    cases extended with
    | false => simp [hscan]
    | true => simp [hne scancode]
  rcases haction with h | h
  · subst h
    simpa [Flutter.KeyboardHook, Flutter.WM_KEYDOWN, Flutter.WM_KEYUP]
      using hbranch Flutter.kKeyDown
  · subst h
    simpa [Flutter.KeyboardHook, Flutter.WM_KEYDOWN, Flutter.WM_KEYUP]
      using hbranch Flutter.kKeyUp

/-- Witness for the amended C3 at a recognised keydown with
`scancode = 30` and `extended = true`. -/
theorem C3_type_and_extended_bit_witness :
    (Flutter.sentEvents
        (Flutter.KeyboardHook (fun _ => 0) 65 30 Flutter.WM_KEYDOWN 97 true false)).length
      = 1 ∧
    ∀ ev ∈ Flutter.sentEvents
        (Flutter.KeyboardHook (fun _ => 0) 65 30 Flutter.WM_KEYDOWN 97 true false),
      (ev.type =
        if Flutter.WM_KEYDOWN = Flutter.WM_KEYDOWN then Flutter.kKeyDown else Flutter.kKeyUp) ∧
      ((ev.scanCode &&& Flutter.kScancodeExtended ≠ 0) ↔ true = true) :=
  C3_type_and_extended_bit (fun _ => 0) 65 30 Flutter.WM_KEYDOWN 97 true false
    (Or.inl rfl) (by decide)

/-- Auxiliary: a bit of a shifted one. -/
theorem testBit_one_shiftLeft (k j : Nat) : Nat.testBit (1 <<< k) j = decide (k = j) := by
  rw [Nat.shiftLeft_eq, one_mul, Nat.testBit_two_pow]

/-- Auxiliary: every bit of the sampled mask as a boolean combination of
the fourteen host queries. -/
theorem getMods_testBit (g : Nat → Int) (j : Nat) :
    (Flutter.GetModsForKeyState g).testBit j =
      ((decide (g Flutter.VK_SHIFT < 0) && Nat.testBit Flutter.kShift j) ||
       (decide (g Flutter.VK_LSHIFT < 0) && Nat.testBit Flutter.kShiftLeft j) ||
       (decide (g Flutter.VK_RSHIFT < 0) && Nat.testBit Flutter.kShiftRight j) ||
       (decide (g Flutter.VK_CONTROL < 0) && Nat.testBit Flutter.kControl j) ||
       (decide (g Flutter.VK_LCONTROL < 0) && Nat.testBit Flutter.kControlLeft j) ||
       (decide (g Flutter.VK_RCONTROL < 0) && Nat.testBit Flutter.kControlRight j) ||
       (decide (g Flutter.VK_MENU < 0) && Nat.testBit Flutter.kAlt j) ||
       (decide (g Flutter.VK_LMENU < 0) && Nat.testBit Flutter.kAltLeft j) ||
       (decide (g Flutter.VK_RMENU < 0) && Nat.testBit Flutter.kAltRight j) ||
       (decide (g Flutter.VK_LWIN < 0) && Nat.testBit Flutter.kWinLeft j) ||
       (decide (g Flutter.VK_RWIN < 0) && Nat.testBit Flutter.kWinRight j) ||
       (decide (g Flutter.VK_CAPITAL < 0) && Nat.testBit Flutter.kCapsLock j) ||
       (decide (g Flutter.VK_NUMLOCK < 0) && Nat.testBit Flutter.kNumLock j) ||
       (decide (g Flutter.VK_SCROLL < 0) && Nat.testBit Flutter.kScrollLock j)) := by
  simp only [Flutter.GetModsForKeyState, testBit_accum, Nat.zero_testBit, Bool.false_or,
    Bool.or_assoc]

/-- C8: the sampled modifier mask uses only the fourteen enumerated bits
(it is below `2 ^ 14`), each bit is set exactly when the corresponding host
key is reported down (`GetKeyState` negative), and host state outside the
fourteen tracked virtual keys never affects the mask. -/
theorem C8_modifier_sampler (g g' : Nat → Int)
    (hagree : ∀ vk ∈ Flutter.trackedModifierKeys, g vk = g' vk) :
    Flutter.GetModsForKeyState g < 2 ^ 14 ∧
    ((Flutter.GetModsForKeyState g).testBit 0 = decide (g Flutter.VK_SHIFT < 0) ∧
     (Flutter.GetModsForKeyState g).testBit 1 = decide (g Flutter.VK_LSHIFT < 0) ∧
     (Flutter.GetModsForKeyState g).testBit 2 = decide (g Flutter.VK_RSHIFT < 0) ∧
     (Flutter.GetModsForKeyState g).testBit 3 = decide (g Flutter.VK_CONTROL < 0) ∧
     (Flutter.GetModsForKeyState g).testBit 4 = decide (g Flutter.VK_LCONTROL < 0) ∧
     (Flutter.GetModsForKeyState g).testBit 5 = decide (g Flutter.VK_RCONTROL < 0) ∧
     (Flutter.GetModsForKeyState g).testBit 6 = decide (g Flutter.VK_MENU < 0) ∧
     (Flutter.GetModsForKeyState g).testBit 7 = decide (g Flutter.VK_LMENU < 0) ∧
     (Flutter.GetModsForKeyState g).testBit 8 = decide (g Flutter.VK_RMENU < 0) ∧
     (Flutter.GetModsForKeyState g).testBit 9 = decide (g Flutter.VK_LWIN < 0) ∧
     (Flutter.GetModsForKeyState g).testBit 10 = decide (g Flutter.VK_RWIN < 0) ∧
     (Flutter.GetModsForKeyState g).testBit 11 = decide (g Flutter.VK_CAPITAL < 0) ∧
     (Flutter.GetModsForKeyState g).testBit 12 = decide (g Flutter.VK_NUMLOCK < 0) ∧
     (Flutter.GetModsForKeyState g).testBit 13 = decide (g Flutter.VK_SCROLL < 0)) ∧
    Flutter.GetModsForKeyState g = Flutter.GetModsForKeyState g' := by
  have step : ∀ (c : Prop) (inst : Decidable c) (m b : Nat), m < 2 ^ 14 → b < 2 ^ 14 →
      (if c then m ||| b else m) < 2 ^ 14 := by
    intro c inst m b hm hb
    split
    · exact Nat.or_lt_two_pow hm hb
    · exact hm
  refine ⟨?_, ?_, ?_⟩
  · simp only [Flutter.GetModsForKeyState]
    repeat' apply step
    all_goals decide
  · refine ⟨?_, ?_, ?_, ?_, ?_, ?_, ?_, ?_, ?_, ?_, ?_, ?_, ?_, ?_⟩ <;>
    · rw [getMods_testBit]
      simp only [Flutter.kShift, Flutter.kShiftLeft, Flutter.kShiftRight, Flutter.kControl,
        Flutter.kControlLeft, Flutter.kControlRight, Flutter.kAlt, Flutter.kAltLeft,
        Flutter.kAltRight, Flutter.kWinLeft, Flutter.kWinRight, Flutter.kCapsLock,
        Flutter.kNumLock, Flutter.kScrollLock, testBit_one_shiftLeft]
      simp
  · have h1 := hagree Flutter.VK_SHIFT (by decide)
    have h2 := hagree Flutter.VK_LSHIFT (by decide)
    have h3 := hagree Flutter.VK_RSHIFT (by decide)
    have h4 := hagree Flutter.VK_CONTROL (by decide)
    have h5 := hagree Flutter.VK_LCONTROL (by decide)
    have h6 := hagree Flutter.VK_RCONTROL (by decide)
    have h7 := hagree Flutter.VK_MENU (by decide)
    have h8 := hagree Flutter.VK_LMENU (by decide)
    have h9 := hagree Flutter.VK_RMENU (by decide)
    have h10 := hagree Flutter.VK_LWIN (by decide)
    have h11 := hagree Flutter.VK_RWIN (by decide)
    have h12 := hagree Flutter.VK_CAPITAL (by decide)
    have h13 := hagree Flutter.VK_NUMLOCK (by decide)
    have h14 := hagree Flutter.VK_SCROLL (by decide)
    simp only [Flutter.GetModsForKeyState, h1, h2, h3, h4, h5, h6, h7, h8, h9, h10,
      h11, h12, h13, h14]

/-- Witness for C8: a host with every key up agrees on the fourteen tracked
keys with a host reporting every untracked key down, and the two masks
coincide. -/
theorem C8_modifier_sampler_witness :
    Flutter.GetModsForKeyState (fun _ => 0) < 2 ^ 14 ∧
    ((Flutter.GetModsForKeyState (fun _ => 0)).testBit 0 = decide ((0 : Int) < 0) ∧
     (Flutter.GetModsForKeyState (fun _ => 0)).testBit 1 = decide ((0 : Int) < 0) ∧
     (Flutter.GetModsForKeyState (fun _ => 0)).testBit 2 = decide ((0 : Int) < 0) ∧
     (Flutter.GetModsForKeyState (fun _ => 0)).testBit 3 = decide ((0 : Int) < 0) ∧
     (Flutter.GetModsForKeyState (fun _ => 0)).testBit 4 = decide ((0 : Int) < 0) ∧
     (Flutter.GetModsForKeyState (fun _ => 0)).testBit 5 = decide ((0 : Int) < 0) ∧
     (Flutter.GetModsForKeyState (fun _ => 0)).testBit 6 = decide ((0 : Int) < 0) ∧
     (Flutter.GetModsForKeyState (fun _ => 0)).testBit 7 = decide ((0 : Int) < 0) ∧
     (Flutter.GetModsForKeyState (fun _ => 0)).testBit 8 = decide ((0 : Int) < 0) ∧
     (Flutter.GetModsForKeyState (fun _ => 0)).testBit 9 = decide ((0 : Int) < 0) ∧
     (Flutter.GetModsForKeyState (fun _ => 0)).testBit 10 = decide ((0 : Int) < 0) ∧
     (Flutter.GetModsForKeyState (fun _ => 0)).testBit 11 = decide ((0 : Int) < 0) ∧
     (Flutter.GetModsForKeyState (fun _ => 0)).testBit 12 = decide ((0 : Int) < 0) ∧
     (Flutter.GetModsForKeyState (fun _ => 0)).testBit 13 = decide ((0 : Int) < 0)) ∧
    Flutter.GetModsForKeyState (fun _ => 0) =
      Flutter.GetModsForKeyState
        (fun vk => if vk ∈ Flutter.trackedModifierKeys then 0 else -1) :=
  C8_modifier_sampler (fun _ => 0)
    (fun vk => if vk ∈ Flutter.trackedModifierKeys then 0 else -1)
    (fun vk hvk => by simp [hvk])
